import Mathlib

/-!
Shallow embedding of `backend/services/llm_service.py`: the agentic
orchestration engine (FAQ shortcut, intent classifier, handler router with
bounded cascade, generation gateway, sync entry point), together with proofs
of the behavioural properties claimed for it.

External effects are modelled as oracles: the generation gateway is a
function from the prompt to a `GatewayOutcome`, and each collaborator
(document retriever, progress analyzer, graph querier) is a function that
either returns its value or raises a Python exception (`Except PyExc`).
Every function additionally returns the list of external calls it makes
(`CallEvent`), so call-count properties are stated as facts about that trace.
-/

/-- Textual views of a raised Python exception: `reprStr` models `repr(e)`
and `strStr` models `str(e)` (the code interpolates one or the other into
its error messages). -/
structure PyExc where
  reprStr : String
  strStr : String
deriving DecidableEq

/-- Outcome of one call to the Ollama HTTP endpoint, as discriminated by the
`try/except` clauses of `generate_llm_response`: a successful body (the
`response` field of the JSON, before `.strip()`), an `httpx.TimeoutException`,
an `httpx.RequestError`, or any other exception. -/
inductive GatewayOutcome where
  | success (text : String)
  | timeout
  | requestError (e : PyExc)
  | otherError (e : PyExc)
deriving DecidableEq

/-- The `LLMResponse` pydantic model: `{answer, source, intent}`. -/
structure LLMResponse where
  answer : String
  source : String
  intent : String
deriving DecidableEq

/-- One observable external call made by the engine, recorded for
call-count properties: a generation-gateway call with its prompt, a
document-retriever call, a progress-analyzer call, or a graph-querier call. -/
inductive CallEvent where
  | genCall (prompt : String)
  | retrieveCall (question : String)
  | progressCall (user : Option String)
  | graphCall (course : String)
deriving DecidableEq

/-- A value together with the external calls made while producing it. -/
abbrev Traced (α : Type) := α × List CallEvent

/-- Checks whether `e` is a generation-gateway call. -/
def CallEvent.isGen : CallEvent → Bool
  | CallEvent.genCall _ => true
  | _ => false

/-- Number of generation-gateway calls in a trace. -/
def genCallCount (tr : List CallEvent) : Nat :=
  (tr.filter CallEvent.isGen).length

/-- Python `str.strip()`: drop whitespace from both ends. -/
def pyStrip (s : String) : String :=
  ⟨((s.data.dropWhile Char.isWhitespace).reverse.dropWhile Char.isWhitespace).reverse⟩

/-- Python `str.lower()` (ASCII case folding; the intents are ASCII). -/
def pyLower (s : String) : String :=
  ⟨s.data.map Char.toLower⟩

/-- Python `str.replace(c, '')`: delete every occurrence of the character. -/
def pyDropAll (c : Char) (s : String) : String :=
  ⟨s.data.filter (fun a => a != c)⟩

/-- Python `str.replace(a, b)` for single characters: map every `a` to `b`. -/
def pySwapAll (a b : Char) (s : String) : String :=
  ⟨s.data.map (fun c => if c == a then b else c)⟩

/-- Does `pat` match at the head of `s`? (helper for substring search). -/
def leadMatch : List Char → List Char → Bool
  | [], _ => true
  | _ :: _, [] => false
  | a :: pat, b :: s => a == b && leadMatch pat s

/-- Does `pat` occur contiguously anywhere in `s`? -/
def subMatch (pat : List Char) : List Char → Bool
  | [] => leadMatch pat []
  | s@(_ :: rest) => leadMatch pat s || subMatch pat rest

/-- Python `pat in s` for strings: substring containment. -/
def pyContains (s pat : String) : Bool :=
  subMatch pat.data s.data

/-- The module constant `LLM_MODEL = "llama3:8b"`. -/
def LLM_MODEL : String := "llama3:8b"

/-- The static `FAQ_DATABASE` dict, as an association list. -/
def FAQ_DATABASE : List (String × String) :=
  [("متى آخر يوم للحذف والإضافة؟", "آخر يوم هو 20 فبراير 2025."),
   ("ما هي درجة النجاح في مادة 101؟", "درجة C أو 60%.")]

/-- Python `question in FAQ_DATABASE` / `FAQ_DATABASE[question]`, fused into
one lookup on the association list. -/
def faqLookup (question : String) : Option String :=
  (FAQ_DATABASE.find? (fun p => p.1 == question)).map (fun p => p.2)

/-- The canned timeout message of `generate_llm_response`. -/
def TIMEOUT_MSG : String :=
  "انتهت مهلة الاتصال بالنموذج. يرجى المحاولة مرة أخرى أو تبسيط السؤال."

/-- The canned connection-failure message of `generate_llm_response`,
embedding `str(e)` and the model name. -/
def connErrorMsg (e : PyExc) : String :=
  "خطأ في الاتصال بـ Ollama: " ++ e.strStr ++
    ". تأكد من أن Ollama يعمل وأن النموذج " ++ LLM_MODEL ++ " محمّل."

/-- The canned unexpected-error message of `generate_llm_response`,
embedding `repr(e)`. -/
def unexpectedErrorMsg (e : PyExc) : String :=
  "حدث خطأ غير متوقع أثناء توليد الإجابة: " ++ e.reprStr

/-- Embedding of `generate_llm_response(prompt)`: one gateway call; on
success the body is `.strip()`ped, and each exception class is converted to
its canned message. It always returns a string, never raises. -/
def generate_llm_response (gw : String → GatewayOutcome) (prompt : String) :
    Traced String :=
  (match gw prompt with
    | GatewayOutcome.success text => pyStrip text
    | GatewayOutcome.timeout => TIMEOUT_MSG
    | GatewayOutcome.requestError e => connErrorMsg e
    | GatewayOutcome.otherError e => unexpectedErrorMsg e,
   [CallEvent.genCall prompt])

/-- The `tools_description` block of `determine_intent`. -/
def toolsDescription : String :=
  "\n    - query_rag: للأسئلة المتعلقة باللوائح، الخطط الدراسية، توصيف المقررات، أو أي معلومات موجودة في المستندات الرسمية.\n    - analyze_progress: للأسئلة المتعلقة بسجل الطالب، المعدل التراكمي، المقررات المتبقية، أو المقررات القابلة للتسجيل.\n    - simulate_gpa: للأسئلة التي تتضمن محاكاة المعدل التراكمي أو حساب المعدل المتوقع.\n    - graph_query: للأسئلة المتعلقة بالمهارات، التخصصات، أو العلاقات بين المقررات (مثل: ما هي المهارات التي أكتسبها من مقرر X؟).\n    - general_chat: للأسئلة العامة، التحية، أو أي سؤال لا يندرج تحت الفئات السابقة.\n    "

/-- The classification meta-prompt of `determine_intent`, with the
verbatim question embedded. -/
def classifyPrompt (question : String) : String :=
  "\n    أنت نظام توجيه ذكي. مهمتك هي تحليل سؤال المستخدم وتحديد الأداة الأنسب للإجابة عليه من القائمة التالية.\n    \n    الأدوات المتاحة:\n    " ++
    toolsDescription ++
    "\n    \n    السؤال: \"" ++ question ++
    "\"\n    \n    الرد يجب أن يكون اسم الأداة فقط، بدون أي شرح أو علامات ترقيم إضافية.\n    مثال: analyze_progress\n    "

/-- The post-processing line of `determine_intent`:
`intent.strip().lower().replace('.', '').replace(' ', '_')`. -/
def normalizeIntent (raw : String) : String :=
  pySwapAll ' ' '_' (pyDropAll '.' (pyLower (pyStrip raw)))

/-- The `valid_intents` list of `determine_intent`. -/
def VALID_INTENTS : List String :=
  ["query_rag", "analyze_progress", "simulate_gpa", "graph_query", "general_chat"]

/-- Embedding of `determine_intent(question)`: one gateway call on the
classification prompt, normalization, then validation against
`VALID_INTENTS` with fallback to `general_chat`. -/
def determine_intent (gw : String → GatewayOutcome) (question : String) :
    Traced String :=
  let gen := generate_llm_response gw (classifyPrompt question)
  let intent := normalizeIntent gen.1
  (if intent ∈ VALID_INTENTS then intent else "general_chat", gen.2)

/-- One entry of `progress_data['registerable_next_semester']`: a dict with a
`code` field (only the code is read by the engine). -/
structure CourseRef where
  code : String
deriving DecidableEq

/-- The dict returned by `progress_service.analyze_progress`. Pure-text
fields (`current_gpa`, `completed_courses`) are modelled by the string the
Python f-string renders them to; the integer counts keep their values. -/
structure ProgressData where
  current_gpa : String
  completed_hours : Nat
  remaining_courses_count : Nat
  registerable_next_semester : List CourseRef
  completed_courses : String
deriving DecidableEq

/-- The injected collaborators of `process_agentic_query` (the `services`
dict plus the gateway). A collaborator that raises is modelled by
`Except.error`; the `progress_db`/`users_db` handles of the Python call are
absorbed into the `analyze_progress` closure. -/
structure Env where
  gateway : String → GatewayOutcome
  retrieve_context : String → Except PyExc (String × String)
  analyze_progress : Option String → Except PyExc ProgressData
  get_skills_for_course : String → Except PyExc (List String)

/-- The `rag_prompt` f-string of the `query_rag` branch. -/
def ragPrompt (context_str question : String) : String :=
  "\n            أنت \"مرشدي الأكاديمي الذكي\".\n            أجب على السؤال بدقة بناءً على المستندات التالية فقط.\n            إذا لم تجد الجواب، قل \"لا أعرف\".\n\n            المستندات:\n            " ++
    context_str ++
    "\n\n            السؤال:\n            " ++ question ++ "\n            "

/-- The `analysis_prompt` f-string of the `analyze_progress` branch. -/
def analysisPrompt (pd : ProgressData) (question : String) : String :=
  "\n            أنت مرشد أكاديمي. بناءً على بيانات تقدم الطالب التالية، أجب على سؤاله.\n            \n            بيانات الطالب:\n            - المعدل التراكمي الحالي: " ++
    pd.current_gpa ++
    "\n            - الساعات المكتملة: " ++ toString pd.completed_hours ++
    "\n            - المقررات المتبقية: " ++ toString pd.remaining_courses_count ++
    "\n            - المقررات القابلة للتسجيل: " ++
    String.intercalate ", " (pd.registerable_next_semester.map (fun c => c.code)) ++
    "\n            - المقررات المكتملة: " ++ pd.completed_courses ++
    "\n            \n            السؤال:\n            " ++ question ++ "\n            "

/-- The `general_prompt` f-string of the `general_chat` branch. -/
def generalPrompt (question : String) : String :=
  "\n        أنت \"مرشدي الأكاديمي الذكي\". أجب على السؤال التالي بأسلوب ودود ومفيد.\n        السؤال:\n        " ++
    question ++ "\n        "

/-- The fixed demo-mode restriction message of the `analyze_progress` branch. -/
def RESTRICTION_MESSAGE : String :=
  "⚠️ الوضع التجريبي لا يدعم الوصول إلى بياناتك الشخصية. يرجى تسجيل الدخول بالبيانات الصحيحة للوصول إلى هذه الميزة."

/-- Python truthiness of `not user_id` for an optional string: absent
(`None`) or empty. -/
def userAbsent : Option String → Bool
  | none => true
  | some s => s == ""

/-- The `general_chat` tail of the router (step 3.5), also the target of
both cascades: one gateway call on the general prompt. -/
def generalStep (env : Env) (question : String) : Traced (Except PyExc LLMResponse) :=
  let gen := generate_llm_response env.gateway (generalPrompt question)
  (Except.ok ⟨gen.1, "LLM (General)", "general_chat"⟩, gen.2)

/-- Embedding of `process_agentic_query(question, user_id, services, is_demo)`:
FAQ shortcut, intent classification, then one router branch per intent with
single-step cascade to `general_chat` from `query_rag` (empty context) and
`graph_query` (heuristic miss or empty skills). Uncaught collaborator
exceptions (document retriever, graph querier) propagate as `Except.error`;
progress-analyzer exceptions are caught in-branch. -/
def process_agentic_query (env : Env) (question : String)
    (user_id : Option String) (is_demo : Bool) :
    Traced (Except PyExc LLMResponse) :=
  match faqLookup question with
  | some ans => (Except.ok ⟨ans, "FAQ Database", "query_rag"⟩, [])
  | none =>
    let cls := determine_intent env.gateway question
    let intent := cls.1
    if intent = "query_rag" then
      let tr := cls.2 ++ [CallEvent.retrieveCall question]
      match env.retrieve_context question with
      | Except.error e => (Except.error e, tr)
      | Except.ok ctx =>
        if ctx.1 ≠ "" then
          let gen := generate_llm_response env.gateway (ragPrompt ctx.1 question)
          (Except.ok ⟨gen.1, ctx.2, intent⟩, tr ++ gen.2)
        else
          let g := generalStep env question
          (g.1, tr ++ g.2)
    else if intent = "analyze_progress" then
      if is_demo || userAbsent user_id then
        (Except.ok ⟨RESTRICTION_MESSAGE, "Demo Mode", intent⟩, cls.2)
      else
        let tr := cls.2 ++ [CallEvent.progressCall user_id]
        match env.analyze_progress user_id with
        | Except.ok pd =>
          let gen := generate_llm_response env.gateway (analysisPrompt pd question)
          (Except.ok ⟨gen.1, "Student Progress Service", intent⟩, tr ++ gen.2)
        | Except.error e =>
          (Except.ok ⟨"حدث خطأ أثناء تحليل تقدم الطالب: " ++ e.reprStr, "Error", intent⟩, tr)
    else if intent = "graph_query" then
      if pyContains question "مهارات" && pyContains question "مقرر" then
        let tr := cls.2 ++ [CallEvent.graphCall "CS101"]
        match env.get_skills_for_course "CS101" with
        | Except.error e => (Except.error e, tr)
        | Except.ok skills =>
          if skills ≠ [] then
            (Except.ok ⟨"المقرر CS101 يدرس المهارات التالية: " ++
                String.intercalate ", " skills, "Graph DB (Neo4j)", intent⟩, tr)
          else
            let g := generalStep env question
            (g.1, tr ++ g.2)
      else
        let g := generalStep env question
        (g.1, cls.2 ++ g.2)
    else if intent = "general_chat" then
      let g := generalStep env question
      (g.1, cls.2 ++ g.2)
    else
      (Except.ok ⟨"عذراً، لم أتمكن من فهم نيتك أو توجيه سؤالك إلى الخدمة المناسبة.",
        "Agent Error", "unknown"⟩, cls.2)

/-- Embedding of the synchronous entry point `process_chat_request`: in demo
mode the caller-supplied identity is replaced by `None` before the pipeline
runs, and an exception escaping `process_agentic_query` is caught and turned
into the outer error dict (`source="Error"`, `intent="error"`, message
embedding `str(e)`). -/
def process_chat_request (env : Env) (question : String) (user_id : String)
    (is_demo : Bool) : Traced LLMResponse :=
  let effective_user_id : Option String := if is_demo then none else some user_id
  let r := process_agentic_query env question effective_user_id is_demo
  match r.1 with
  | Except.ok resp => (⟨resp.answer, resp.source, resp.intent⟩, r.2)
  | Except.error e =>
    (⟨"عذراً، حدث خطأ أثناء معالجة سؤالك: " ++ e.strStr, "Error", "error"⟩, r.2)

/-- Trace fact used throughout: one classification makes exactly one gateway
call, on the classification prompt. -/
theorem determine_intent_trace (gw : String → GatewayOutcome) (q : String) :
    (determine_intent gw q).2 = [CallEvent.genCall (classifyPrompt q)] := rfl

/-- String append acts as list append on the character data. -/
theorem string_data_append (a b : String) : (a ++ b).data = a.data ++ b.data := rfl

/-- String append is associative. -/
theorem string_append_assoc (a b c : String) : a ++ b ++ c = a ++ (b ++ c) := by
  cases a; cases b; cases c
  exact congrArg String.mk (List.append_assoc _ _ _)

/-- An element on which the predicate fails survives `dropWhile`. -/
theorem mem_dropWhile_of_mem {p : Char → Bool} {a : Char} :
    ∀ {l : List Char}, a ∈ l → p a = false → a ∈ l.dropWhile p := by
  intro l h ha
  induction l with
  | nil => cases h
  | cons x xs ih =>
    rw [List.dropWhile_cons]
    by_cases hx : p x = true
    · rw [if_pos hx]
      rcases List.mem_cons.mp h with rfl | hmem
      · rw [ha] at hx; cases hx
      · exact ih hmem
    · rw [if_neg hx]
      exact h

/-- A non-whitespace character survives Python `strip`. -/
theorem mem_pyStrip {a : Char} {s : String} (h : a ∈ s.data)
    (ha : Char.isWhitespace a = false) : a ∈ (pyStrip s).data := by
  unfold pyStrip
  refine List.mem_reverse.mpr (mem_dropWhile_of_mem ?_ ha)
  exact List.mem_reverse.mpr (mem_dropWhile_of_mem h ha)

/-- A non-whitespace, non-period, non-space character that is already
lowercase survives the intent normalization chain. -/
theorem mem_normalizeIntent {a : Char} {s : String} (h : a ∈ s.data)
    (hws : Char.isWhitespace a = false) (hdot : (a != '.') = true)
    (hsp : (a == ' ') = false) (hlo : Char.toLower a = a) :
    a ∈ (normalizeIntent s).data := by
  unfold normalizeIntent pySwapAll pyDropAll pyLower
  have h1 : a ∈ (pyStrip s).data := mem_pyStrip h hws
  have h2 : a ∈ (pyStrip s).data.map Char.toLower := by
    have := List.mem_map_of_mem Char.toLower h1
    rwa [hlo] at this
  have h3 : a ∈ ((pyStrip s).data.map Char.toLower).filter (fun c => c != '.') :=
    List.mem_filter.mpr ⟨h2, hdot⟩
  have h4 := List.mem_map_of_mem (fun c => if c == ' ' then '_' else c) h3
  simpa [hsp] using h4

/-- No valid intent contains the Arabic letter Khah, so any string containing
it fails validation. -/
theorem kha_not_valid {s : String} (h : ('خ' : Char) ∈ s.data) : s ∉ VALID_INTENTS := by
  intro hs
  simp only [VALID_INTENTS, List.mem_cons, List.not_mem_nil, or_false] at hs
  rcases hs with rfl | rfl | rfl | rfl | rfl <;> exact absurd h (by decide)

/-- A pattern matches at the head of itself followed by anything. -/
theorem leadMatch_self_append (pat rest : List Char) : leadMatch pat (pat ++ rest) = true := by
  induction pat with
  | nil => rfl
  | cons a pat ih => simp [leadMatch, ih]

/-- Substring search succeeds anywhere in the suffix. -/
theorem subMatch_append_left (pat pre l : List Char) (h : subMatch pat l = true) :
    subMatch pat (pre ++ l) = true := by
  induction pre with
  | nil => exact h
  | cons a pre ih =>
    show subMatch pat (a :: (pre ++ l)) = true
    rw [subMatch]
    exact Bool.or_eq_true _ _ |>.mpr (Or.inr ih)

/-- Substring search finds the pattern at the front. -/
theorem subMatch_self_append (pat rest : List Char) : subMatch pat (pat ++ rest) = true := by
  cases pat with
  | nil =>
    cases rest with
    | nil => rfl
    | cons x r => rw [List.nil_append, subMatch]; simp [leadMatch]
  | cons a pat =>
    rw [List.cons_append, subMatch]
    exact Bool.or_eq_true _ _ |>.mpr (Or.inl (leadMatch_self_append (a :: pat) rest))

/-- Substring search finds the pattern in itself. -/
theorem subMatch_self (pat : List Char) : subMatch pat pat = true := by
  have := subMatch_self_append pat []
  rwa [List.append_nil] at this

/-- A string of the shape `A ++ (s ++ B)` contains `s`. -/
theorem pyContains_append_mid (A s B : String) : pyContains (A ++ (s ++ B)) s = true := by
  unfold pyContains
  rw [string_data_append, string_data_append]
  exact subMatch_append_left _ _ _ (subMatch_self_append _ _)

/-- A string of the shape `A ++ s` contains `s`. -/
theorem pyContains_append_right (A s : String) : pyContains (A ++ s) s = true := by
  unfold pyContains
  rw [string_data_append]
  exact subMatch_append_left _ _ _ (subMatch_self _)

/-- Modelled from the spec: the post-processing step the spec describes for
the classifier, which strips only trailing periods ("trim whitespace,
lowercase, strip trailing periods, replace internal spaces with
underscores"), for comparison against the code's `normalizeIntent`. -/
def stripTrailingPeriodsOnly (s : String) : String :=
  ⟨(s.data.reverse.dropWhile (fun c => c == '.')).reverse⟩

/-- Modelled from the spec: the full spec-described normalization chain,
differing from the code only in the period-stripping step. -/
def normalizeIntentSpecWords (raw : String) : String :=
  pySwapAll ' ' '_' (stripTrailingPeriodsOnly (pyLower (pyStrip raw)))

/-- Gateway stub that always succeeds with the given text. -/
def gwSuccess (s : String) : String → GatewayOutcome := fun _ => GatewayOutcome.success s

/-- Sample progress payload used by concrete witnesses. -/
def sampleProgress : ProgressData := ⟨"3.2", 90, 6, [⟨"CS301"⟩], "[CS101, MATH101]"⟩

/-- Sample collaborator exception used by concrete witnesses. -/
def sampleExc : PyExc := ⟨"KeyError(current_gpa)", "current_gpa"⟩

/-- Collaborator environment whose collaborators never raise: empty retrieval
context, the sample progress payload, and two skills for every course. -/
def okEnv (gw : String → GatewayOutcome) : Env :=
  { gateway := gw
    retrieve_context := fun _ => Except.ok ("", "")
    analyze_progress := fun _ => Except.ok sampleProgress
    get_skills_for_course := fun _ => Except.ok ["Logic", "Proofs"] }

/-- Environment whose progress analyzer raises `sampleExc`. -/
def errEnv : Env :=
  { okEnv (gwSuccess "analyze_progress") with
    analyze_progress := fun _ => Except.error sampleExc }

/-- Environment whose document retriever raises `sampleExc` (the `query_rag`
branch has no `try`, so this exception escapes `process_agentic_query`). -/
def raisingRetrieverEnv : Env :=
  { okEnv (gwSuccess "query_rag") with
    retrieve_context := fun _ => Except.error sampleExc }

/-- C1 counterexample: the claim "determine_intent never returns
simulate_gpa, whatever text the Generation Gateway produces" fails on the
code: when the gateway answers the classification prompt with the text
"simulate_gpa", `determine_intent` returns "simulate_gpa", which is outside
the four claimed reachable intents (the `valid_intents` list of the code
includes `simulate_gpa`). -/
theorem determine_intent_can_return_simulate_gpa :
    (determine_intent (gwSuccess "simulate_gpa") "هل تستطيع محاكاة معدلي التراكمي؟").1 =
      "simulate_gpa" ∧
    ("simulate_gpa" : String) ∉
      (["query_rag", "analyze_progress", "graph_query", "general_chat"] : List String) :=
  ⟨rfl, by decide⟩

/-- C1 (amended): for every question and gateway behaviour,
`determine_intent` returns one of the five members of `valid_intents`
(`simulate_gpa` included), and it returns `simulate_gpa` exactly when the
normalized gateway output is the string "simulate_gpa". -/
theorem determine_intent_returns_valid_intent (gw : String → GatewayOutcome)
    (question : String) :
    (determine_intent gw question).1 ∈ VALID_INTENTS ∧
    ((determine_intent gw question).1 = "simulate_gpa" ↔
      normalizeIntent (generate_llm_response gw (classifyPrompt question)).1 =
        "simulate_gpa") := by
  unfold determine_intent
  dsimp only
  by_cases h : normalizeIntent (generate_llm_response gw (classifyPrompt question)).1 ∈ VALID_INTENTS
  · rw [if_pos h]
    exact ⟨h, Iff.rfl⟩
  · rw [if_neg h]
    refine ⟨by decide, ?_, ?_⟩
    · intro hc; exact absurd hc (by decide)
    · intro hn; exact absurd (hn ▸ (by decide : ("simulate_gpa" : String) ∈ VALID_INTENTS)) h

/-- Validation fact shared by the routing analysis: whatever the gateway
answers, the classifier's returned value is a member of `valid_intents`. -/
theorem determine_intent_mem_valid (gw : String → GatewayOutcome) (question : String) :
    (determine_intent gw question).1 ∈ VALID_INTENTS := by
  unfold determine_intent
  dsimp only
  by_cases h : normalizeIntent (generate_llm_response gw (classifyPrompt question)).1 ∈ VALID_INTENTS
  · rw [if_pos h]; exact h
  · rw [if_neg h]; decide

/-- Shape of every Response the router can return: its intent is one of the
five valid intents or the sentinel "unknown", and "unknown" is produced only
by the final fall-through, i.e. only when the question misses the FAQ and
classification yields `simulate_gpa`. -/
theorem process_ok_intent_shape (env : Env) (question : String)
    (user_id : Option String) (is_demo : Bool) (r : LLMResponse)
    (h : (process_agentic_query env question user_id is_demo).1 = Except.ok r) :
    r.intent ∈ ["query_rag", "analyze_progress", "simulate_gpa", "graph_query",
      "general_chat", "unknown"] ∧
    (r.intent = "unknown" →
      faqLookup question = none ∧
      (determine_intent env.gateway question).1 = "simulate_gpa") := by
  unfold process_agentic_query generalStep at h
  dsimp only at h
  split at h
  next a heq =>
    injection h with h2
    subst h2
    exact ⟨List.Mem.head _,
      fun habs => absurd habs (by decide : ¬ ("query_rag" : String) = "unknown")⟩
  next heq =>
    split at h
    next hq =>
      split at h
      next e he => exact absurd h (by simp)
      next ctx hok =>
        split at h
        · injection h with h2
          subst h2
          rw [hq]
          exact ⟨List.Mem.head _,
            fun habs => absurd habs (by decide : ¬ ("query_rag" : String) = "unknown")⟩
        · injection h with h2
          subst h2
          exact ⟨List.Mem.tail _ (List.Mem.tail _ (List.Mem.tail _ (List.Mem.tail _ (List.Mem.head _)))),
            fun habs => absurd habs (by decide : ¬ ("general_chat" : String) = "unknown")⟩
    next hnq =>
      split at h
      next ha =>
        split at h
        · injection h with h2
          subst h2
          rw [ha]
          exact ⟨List.Mem.tail _ (List.Mem.head _),
            fun habs => absurd habs (by decide : ¬ ("analyze_progress" : String) = "unknown")⟩
        split at h
        · injection h with h2
          subst h2
          rw [ha]
          exact ⟨List.Mem.tail _ (List.Mem.head _),
            fun habs => absurd habs (by decide : ¬ ("analyze_progress" : String) = "unknown")⟩
        next e he =>
          injection h with h2
          subst h2
          rw [ha]
          exact ⟨List.Mem.tail _ (List.Mem.head _),
            fun habs => absurd habs (by decide : ¬ ("analyze_progress" : String) = "unknown")⟩
      next hna =>
        split at h
        next hgq =>
          split at h
          · split at h
            next e he => exact absurd h (by simp)
            next skills hok =>
              split at h
              · injection h with h2
                subst h2
                rw [hgq]
                exact ⟨List.Mem.tail _ (List.Mem.tail _ (List.Mem.tail _ (List.Mem.head _))),
                  fun habs => absurd habs (by decide : ¬ ("graph_query" : String) = "unknown")⟩
              · injection h with h2
                subst h2
                exact ⟨List.Mem.tail _ (List.Mem.tail _ (List.Mem.tail _ (List.Mem.tail _ (List.Mem.head _)))),
                  fun habs => absurd habs (by decide : ¬ ("general_chat" : String) = "unknown")⟩
          · injection h with h2
            subst h2
            exact ⟨List.Mem.tail _ (List.Mem.tail _ (List.Mem.tail _ (List.Mem.tail _ (List.Mem.head _)))),
              fun habs => absurd habs (by decide : ¬ ("general_chat" : String) = "unknown")⟩
        next hng =>
          split at h
          next hgc =>
            injection h with h2
            subst h2
            exact ⟨List.Mem.tail _ (List.Mem.tail _ (List.Mem.tail _ (List.Mem.tail _ (List.Mem.head _)))),
              fun habs => absurd habs (by decide : ¬ ("general_chat" : String) = "unknown")⟩
          next hngc =>
            injection h with h2
            subst h2
            refine ⟨List.Mem.tail _ (List.Mem.tail _ (List.Mem.tail _ (List.Mem.tail _ (List.Mem.tail _ (List.Mem.head _))))), fun _ => ⟨heq, ?_⟩⟩
            have hmem := determine_intent_mem_valid env.gateway question
            simp only [VALID_INTENTS, List.mem_cons, List.not_mem_nil, or_false] at hmem
            rcases hmem with hm | hm | hm | hm | hm
            · exact absurd hm hnq
            · exact absurd hm hna
            · exact hm
            · exact absurd hm hng
            · exact absurd hm hngc

/-- C2 counterexample: the claim fails on the code in two ways. First, with
a gateway that classifies to `simulate_gpa` the engine falls through every
branch to the final "unexpected case" and returns intent "unknown", outside
the closed set. Second, a raising document retriever escapes
`process_agentic_query` uncaught (only the entry point catches it), so not
every collaborator behaviour yields a returned Response. -/
theorem process_agentic_query_unknown_intent_cex :
    (process_agentic_query (okEnv (gwSuccess "simulate_gpa")) "هل يمكنك محاكاة معدلي؟"
      (some "S1") false).1 =
      Except.ok ⟨"عذراً، لم أتمكن من فهم نيتك أو توجيه سؤالك إلى الخدمة المناسبة.",
        "Agent Error", "unknown"⟩ ∧
    ("unknown" : String) ∉ VALID_INTENTS ∧
    (process_agentic_query raisingRetrieverEnv "ما هي متطلبات التخرج؟"
      (some "S1") false).1 = Except.error sampleExc :=
  ⟨rfl, by decide, rfl⟩

/-- C2 (amended): for every question, identity, demo flag, and collaborator
behaviour, every Response `process_agentic_query` returns has an intent in
the closed set {query_rag, analyze_progress, simulate_gpa, graph_query,
general_chat} extended by the sentinel "unknown"; a returned intent is
"unknown" exactly when the question misses the FAQ and classification yields
`simulate_gpa`; and whenever the document retriever and graph querier do not
raise, exactly one Response is returned. -/
theorem process_agentic_query_intent_closed (env : Env) (question : String)
    (user_id : Option String) (is_demo : Bool) :
    (∀ r, (process_agentic_query env question user_id is_demo).1 = Except.ok r →
      r.intent ∈ ["query_rag", "analyze_progress", "simulate_gpa", "graph_query",
        "general_chat", "unknown"]) ∧
    ((∃ r, (process_agentic_query env question user_id is_demo).1 = Except.ok r ∧
        r.intent = "unknown") ↔
      (faqLookup question = none ∧
        (determine_intent env.gateway question).1 = "simulate_gpa")) ∧
    ((∀ s, (env.retrieve_context s).isOk = true) →
      (∀ c, (env.get_skills_for_course c).isOk = true) →
      ∃ r, (process_agentic_query env question user_id is_demo).1 = Except.ok r) := by
  refine ⟨fun r h => (process_ok_intent_shape env question user_id is_demo r h).1,
    ⟨?_, ?_⟩, ?_⟩
  · rintro ⟨r, hr, hint⟩
    exact (process_ok_intent_shape env question user_id is_demo r hr).2 hint
  · rintro ⟨hfaq, hcls⟩
    refine ⟨⟨"عذراً، لم أتمكن من فهم نيتك أو توجيه سؤالك إلى الخدمة المناسبة.",
      "Agent Error", "unknown"⟩, ?_, rfl⟩
    unfold process_agentic_query
    rw [hfaq]
    dsimp only
    rw [hcls]
    rw [if_neg (by decide), if_neg (by decide), if_neg (by decide), if_neg (by decide)]
  · intro hr hg
    unfold process_agentic_query generalStep
    dsimp only
    split
    · exact ⟨_, rfl⟩
    split
    next hq =>
      split
      next e he => exact Bool.noConfusion (he ▸ hr question)
      next ctx hok =>
        split
        · exact ⟨_, rfl⟩
        · exact ⟨_, rfl⟩
    split
    next ha =>
      split
      · exact ⟨_, rfl⟩
      split
      · exact ⟨_, rfl⟩
      next e he => exact ⟨_, rfl⟩
    split
    next hgq =>
      split
      · split
        next e he => exact Bool.noConfusion (he ▸ hg "CS101")
        next skills hok =>
          split
          · exact ⟨_, rfl⟩
          · exact ⟨_, rfl⟩
      · exact ⟨_, rfl⟩
    split
    · exact ⟨_, rfl⟩
    · exact ⟨_, rfl⟩

/-- C2 witness: the amended theorem's biconditional applied to a concrete
environment classifying to `simulate_gpa` produces the "unknown" Response. -/
theorem process_agentic_query_intent_closed_witness :
    ∃ r, (process_agentic_query (okEnv (gwSuccess "simulate_gpa")) "هل يمكنك محاكاة معدلي؟"
      (some "S1") false).1 = Except.ok r ∧ r.intent = "unknown" :=
  (process_agentic_query_intent_closed (okEnv (gwSuccess "simulate_gpa"))
    "هل يمكنك محاكاة معدلي؟" (some "S1") false).2.1.mpr ⟨rfl, rfl⟩

/-- C3: when the question misses the FAQ, the classified intent is
`query_rag`, and the retriever returns an empty context, the engine makes no
gateway call in the `query_rag` branch, cascades exactly once to
`general_chat`, and returns that branch's Response; the full call trace is
the classification gateway call, the retriever call, and one generation call
on the general prompt — so dropping the classifier's own gateway call (the
first event) there is exactly one generation call, not two. -/
theorem query_rag_empty_context_cascade (env : Env) (question src : String)
    (user_id : Option String) (is_demo : Bool)
    (h_faq : faqLookup question = none)
    (h_cls : (determine_intent env.gateway question).1 = "query_rag")
    (h_ret : env.retrieve_context question = Except.ok ("", src)) :
    process_agentic_query env question user_id is_demo =
      (Except.ok ⟨(generate_llm_response env.gateway (generalPrompt question)).1,
         "LLM (General)", "general_chat"⟩,
       [CallEvent.genCall (classifyPrompt question), CallEvent.retrieveCall question,
        CallEvent.genCall (generalPrompt question)]) ∧
    genCallCount ((process_agentic_query env question user_id is_demo).2.drop 1) = 1 := by
  have hmain : process_agentic_query env question user_id is_demo =
      (Except.ok ⟨(generate_llm_response env.gateway (generalPrompt question)).1,
         "LLM (General)", "general_chat"⟩,
       [CallEvent.genCall (classifyPrompt question), CallEvent.retrieveCall question,
        CallEvent.genCall (generalPrompt question)]) := by
    unfold process_agentic_query
    rw [h_faq]
    dsimp only
    rw [h_cls, h_ret]
    simp [generalStep, determine_intent_trace, generate_llm_response]
  refine ⟨hmain, ?_⟩
  rw [hmain]
  rfl

/-- C3 witness: concrete run with empty retrieval context; the classifier
answers `query_rag` and the engine ends in `general_chat` with one
post-classification generation call. -/
theorem query_rag_empty_context_cascade_witness :
    process_agentic_query (okEnv (gwSuccess "query_rag")) "ما هي متطلبات التخرج؟"
        (some "S1") false =
      (Except.ok ⟨(generate_llm_response (okEnv (gwSuccess "query_rag")).gateway
           (generalPrompt "ما هي متطلبات التخرج؟")).1,
         "LLM (General)", "general_chat"⟩,
       [CallEvent.genCall (classifyPrompt "ما هي متطلبات التخرج؟"),
        CallEvent.retrieveCall "ما هي متطلبات التخرج؟",
        CallEvent.genCall (generalPrompt "ما هي متطلبات التخرج؟")]) ∧
    genCallCount ((process_agentic_query (okEnv (gwSuccess "query_rag"))
      "ما هي متطلبات التخرج؟" (some "S1") false).2.drop 1) = 1 :=
  query_rag_empty_context_cascade (okEnv (gwSuccess "query_rag"))
    "ما هي متطلبات التخرج؟" "" (some "S1") false rfl rfl rfl

/-- C4 counterexample: the claim names the source label "Graph DB", but the
code labels the graph-branch Response "Graph DB (Neo4j)": on a concrete run
satisfying all the claim's premises the returned source differs from the
claimed one. -/
theorem graph_query_source_label_cex :
    (process_agentic_query (okEnv (gwSuccess "graph_query")) "ما هي مهارات مقرر CS101؟"
      (some "S1") false).1 =
      Except.ok ⟨"المقرر CS101 يدرس المهارات التالية: Logic, Proofs",
        "Graph DB (Neo4j)", "graph_query"⟩ ∧
    ("Graph DB (Neo4j)" : String) ≠ "Graph DB" :=
  ⟨rfl, by decide⟩

/-- C4 (amended): with intent `graph_query`, both heuristic keywords in the
question, and a non-empty skill list, the engine returns the deterministic
templated answer with source "Graph DB (Neo4j)" and intent "graph_query",
and the trace carries no generation call beyond the classifier's own (first)
one. -/
theorem graph_query_templated_answer (env : Env) (question : String)
    (user_id : Option String) (is_demo : Bool) (skills : List String)
    (h_faq : faqLookup question = none)
    (h_cls : (determine_intent env.gateway question).1 = "graph_query")
    (h_kw1 : pyContains question "مهارات" = true)
    (h_kw2 : pyContains question "مقرر" = true)
    (h_sk : env.get_skills_for_course "CS101" = Except.ok skills)
    (h_ne : skills ≠ []) :
    process_agentic_query env question user_id is_demo =
      (Except.ok ⟨"المقرر CS101 يدرس المهارات التالية: " ++ String.intercalate ", " skills,
         "Graph DB (Neo4j)", "graph_query"⟩,
       [CallEvent.genCall (classifyPrompt question), CallEvent.graphCall "CS101"]) ∧
    genCallCount ((process_agentic_query env question user_id is_demo).2.drop 1) = 0 := by
  have hmain : process_agentic_query env question user_id is_demo =
      (Except.ok ⟨"المقرر CS101 يدرس المهارات التالية: " ++ String.intercalate ", " skills,
         "Graph DB (Neo4j)", "graph_query"⟩,
       [CallEvent.genCall (classifyPrompt question), CallEvent.graphCall "CS101"]) := by
    unfold process_agentic_query
    rw [h_faq]
    dsimp only
    rw [h_cls, h_kw1, h_kw2, h_sk]
    simp [determine_intent_trace, h_ne]
  refine ⟨hmain, ?_⟩
  rw [hmain]
  rfl

/-- C4 witness: the amended theorem at skills ["Logic", "Proofs"] produces
the exact templated sentence of the claim. -/
theorem graph_query_templated_answer_witness :
    process_agentic_query (okEnv (gwSuccess "graph_query")) "ما هي مهارات مقرر CS101؟"
        (some "S1") false =
      (Except.ok ⟨"المقرر CS101 يدرس المهارات التالية: " ++
           String.intercalate ", " ["Logic", "Proofs"],
         "Graph DB (Neo4j)", "graph_query"⟩,
       [CallEvent.genCall (classifyPrompt "ما هي مهارات مقرر CS101؟"),
        CallEvent.graphCall "CS101"]) ∧
    genCallCount ((process_agentic_query (okEnv (gwSuccess "graph_query"))
      "ما هي مهارات مقرر CS101؟" (some "S1") false).2.drop 1) = 0 :=
  graph_query_templated_answer (okEnv (gwSuccess "graph_query"))
    "ما هي مهارات مقرر CS101؟" (some "S1") false ["Logic", "Proofs"]
    rfl rfl rfl rfl rfl (by decide)

/-- C5: a question that is an exact key of the FAQ table returns the table's
answer with source "FAQ Database" and intent "query_rag", with an empty call
trace — zero classification calls, zero gateway calls, zero collaborator
calls. -/
theorem faq_hit_short_circuit (env : Env) (question answer : String)
    (user_id : Option String) (is_demo : Bool)
    (h : faqLookup question = some answer) :
    process_agentic_query env question user_id is_demo =
      (Except.ok ⟨answer, "FAQ Database", "query_rag"⟩, []) := by
  unfold process_agentic_query
  rw [h]

/-- C5 witness: the first FAQ key produces its canned answer with no external
calls at all. -/
theorem faq_hit_short_circuit_witness :
    process_agentic_query (okEnv (gwSuccess "query_rag")) "متى آخر يوم للحذف والإضافة؟"
        (some "S1") false =
      (Except.ok ⟨"آخر يوم هو 20 فبراير 2025.", "FAQ Database", "query_rag"⟩, []) :=
  faq_hit_short_circuit (okEnv (gwSuccess "query_rag")) "متى آخر يوم للحذف والإضافة؟"
    "آخر يوم هو 20 فبراير 2025." (some "S1") false rfl

/-- C6: with intent `analyze_progress` and the demo flag set or the identity
absent (Python-falsy), the engine immediately returns the fixed restriction
message with source "Demo Mode" and intent "analyze_progress"; the trace
holds only the classifier's own gateway call — zero progress-analyzer calls
and zero further generation calls. -/
theorem analyze_progress_demo_restriction (env : Env) (question : String)
    (user_id : Option String) (is_demo : Bool)
    (h_faq : faqLookup question = none)
    (h_cls : (determine_intent env.gateway question).1 = "analyze_progress")
    (h_demo : (is_demo || userAbsent user_id) = true) :
    process_agentic_query env question user_id is_demo =
      (Except.ok ⟨RESTRICTION_MESSAGE, "Demo Mode", "analyze_progress"⟩,
       [CallEvent.genCall (classifyPrompt question)]) ∧
    genCallCount ((process_agentic_query env question user_id is_demo).2.drop 1) = 0 := by
  have hmain : process_agentic_query env question user_id is_demo =
      (Except.ok ⟨RESTRICTION_MESSAGE, "Demo Mode", "analyze_progress"⟩,
       [CallEvent.genCall (classifyPrompt question)]) := by
    unfold process_agentic_query
    rw [h_faq]
    dsimp only
    rw [h_cls, h_demo]
    simp [determine_intent_trace]
  refine ⟨hmain, ?_⟩
  rw [hmain]
  rfl

/-- C6 witness: a demo-mode run hits the restriction branch. -/
theorem analyze_progress_demo_restriction_witness :
    process_agentic_query (okEnv (gwSuccess "analyze_progress")) "ما هو معدلي التراكمي؟"
        (some "S1") true =
      (Except.ok ⟨RESTRICTION_MESSAGE, "Demo Mode", "analyze_progress"⟩,
       [CallEvent.genCall (classifyPrompt "ما هو معدلي التراكمي؟")]) ∧
    genCallCount ((process_agentic_query (okEnv (gwSuccess "analyze_progress"))
      "ما هو معدلي التراكمي؟" (some "S1") true).2.drop 1) = 0 :=
  analyze_progress_demo_restriction (okEnv (gwSuccess "analyze_progress"))
    "ما هو معدلي التراكمي؟" (some "S1") true rfl rfl rfl

/-- C7: if the progress analyzer raises in the `analyze_progress` branch, the
engine catches it and returns a Response embedding `repr(e)` with source
"Error" and intent "analyze_progress" — the result is `Except.ok`, never a
propagated exception. -/
theorem analyze_progress_error_caught (env : Env) (question : String)
    (user_id : Option String) (is_demo : Bool) (e : PyExc)
    (h_faq : faqLookup question = none)
    (h_cls : (determine_intent env.gateway question).1 = "analyze_progress")
    (h_auth : (is_demo || userAbsent user_id) = false)
    (h_exc : env.analyze_progress user_id = Except.error e) :
    process_agentic_query env question user_id is_demo =
      (Except.ok ⟨"حدث خطأ أثناء تحليل تقدم الطالب: " ++ e.reprStr, "Error",
         "analyze_progress"⟩,
       [CallEvent.genCall (classifyPrompt question), CallEvent.progressCall user_id]) := by
  unfold process_agentic_query
  rw [h_faq]
  dsimp only
  rw [h_cls, h_auth, h_exc]
  simp [determine_intent_trace]

/-- C7 witness: a raising analyzer yields the error-labelled Response. -/
theorem analyze_progress_error_caught_witness :
    process_agentic_query errEnv "ما هو معدلي التراكمي؟" (some "S1") false =
      (Except.ok ⟨"حدث خطأ أثناء تحليل تقدم الطالب: " ++ sampleExc.reprStr, "Error",
         "analyze_progress"⟩,
       [CallEvent.genCall (classifyPrompt "ما هو معدلي التراكمي؟"),
        CallEvent.progressCall (some "S1")]) :=
  analyze_progress_error_caught errEnv "ما هو معدلي التراكمي؟" (some "S1") false
    sampleExc rfl rfl rfl rfl

/-- C8: `generate_llm_response` never raises: for every prompt it returns a
text string — the stripped body on success, the canned localized timeout
message on timeout, a canned message containing `str(e)` on a connection
failure, and a canned message containing `repr(e)` on any other exception. -/
theorem generate_llm_response_never_raises (gw : String → GatewayOutcome)
    (prompt : String) :
    (∀ t, gw prompt = GatewayOutcome.success t →
      (generate_llm_response gw prompt).1 = pyStrip t) ∧
    (gw prompt = GatewayOutcome.timeout →
      (generate_llm_response gw prompt).1 = TIMEOUT_MSG) ∧
    (∀ e, gw prompt = GatewayOutcome.requestError e →
      (generate_llm_response gw prompt).1 = connErrorMsg e ∧
      pyContains (generate_llm_response gw prompt).1 e.strStr = true) ∧
    (∀ e, gw prompt = GatewayOutcome.otherError e →
      (generate_llm_response gw prompt).1 = unexpectedErrorMsg e ∧
      pyContains (generate_llm_response gw prompt).1 e.reprStr = true) := by
  refine ⟨?_, ?_, ?_, ?_⟩
  · intro t h; simp [generate_llm_response, h]
  · intro h; simp [generate_llm_response, h]
  · intro e h
    have h1 : (generate_llm_response gw prompt).1 = connErrorMsg e := by
      simp [generate_llm_response, h]
    refine ⟨h1, ?_⟩
    rw [h1]
    have h2 : connErrorMsg e = "خطأ في الاتصال بـ Ollama: " ++
        (e.strStr ++ (". تأكد من أن Ollama يعمل وأن النموذج " ++ (LLM_MODEL ++ " محمّل."))) := by
      unfold connErrorMsg
      rw [string_append_assoc, string_append_assoc, string_append_assoc]
    rw [h2]
    exact pyContains_append_mid _ _ _
  · intro e h
    have h1 : (generate_llm_response gw prompt).1 = unexpectedErrorMsg e := by
      simp [generate_llm_response, h]
    refine ⟨h1, ?_⟩
    rw [h1]
    exact pyContains_append_right _ _

/-- C8 witness: a connection failure produces the canned message and it
contains the exception's text. -/
theorem generate_llm_response_never_raises_witness :
    (generate_llm_response (fun _ => GatewayOutcome.requestError sampleExc) "سؤال").1 =
      connErrorMsg sampleExc ∧
    pyContains (generate_llm_response (fun _ => GatewayOutcome.requestError sampleExc)
      "سؤال").1 sampleExc.strStr = true :=
  (generate_llm_response_never_raises (fun _ => GatewayOutcome.requestError sampleExc)
    "سؤال").2.2.1 sampleExc rfl

/-- C9 counterexample: the claim describes the post-processing as stripping
only trailing periods, but the code removes every period: on the raw gateway
output "query._rag" the code's normalization yields the valid intent
"query_rag" (and the classifier returns it), while the spec-described
normalization leaves "query._rag", which would fail validation. -/
theorem normalize_intent_periods_cex :
    normalizeIntent "query._rag" = "query_rag" ∧
    normalizeIntentSpecWords "query._rag" = "query._rag" ∧
    normalizeIntent "query._rag" ≠ normalizeIntentSpecWords "query._rag" ∧
    (determine_intent (gwSuccess "query._rag") "سؤال").1 = "query_rag" :=
  ⟨rfl, rfl, by decide, rfl⟩

/-- C9 (amended): the classifier's post-processing trims whitespace,
lowercases, removes all periods and replaces spaces with underscores
(`normalizeIntent`); any result outside the valid intent set maps to
`general_chat`, and in particular every gateway failure message — the
timeout message and the connection/unexpected error messages for every
exception — classifies to `general_chat`, never to an error. -/
theorem determine_intent_fail_open (gw : String → GatewayOutcome)
    (question : String) :
    (normalizeIntent (generate_llm_response gw (classifyPrompt question)).1 ∉ VALID_INTENTS →
      (determine_intent gw question).1 = "general_chat") ∧
    (gw (classifyPrompt question) = GatewayOutcome.timeout →
      (determine_intent gw question).1 = "general_chat") ∧
    (∀ e, gw (classifyPrompt question) = GatewayOutcome.requestError e →
      (determine_intent gw question).1 = "general_chat") ∧
    (∀ e, gw (classifyPrompt question) = GatewayOutcome.otherError e →
      (determine_intent gw question).1 = "general_chat") := by
  refine ⟨?_, ?_, ?_, ?_⟩
  · intro h
    unfold determine_intent
    dsimp only
    rw [if_neg h]
  · intro h
    have hraw : (generate_llm_response gw (classifyPrompt question)).1 = TIMEOUT_MSG := by
      simp [generate_llm_response, h]
    unfold determine_intent
    dsimp only
    rw [hraw, if_neg (by decide)]
  · intro e h
    have hraw : (generate_llm_response gw (classifyPrompt question)).1 = connErrorMsg e := by
      simp [generate_llm_response, h]
    have hk : ('خ' : Char) ∈ (connErrorMsg e).data := by
      unfold connErrorMsg
      rw [string_data_append, string_data_append, string_data_append, string_data_append]
      refine List.mem_append.mpr (Or.inl ?_)
      refine List.mem_append.mpr (Or.inl ?_)
      refine List.mem_append.mpr (Or.inl ?_)
      refine List.mem_append.mpr (Or.inl ?_)
      decide
    have hmem := mem_normalizeIntent hk (by decide) (by decide) (by decide) (by decide)
    unfold determine_intent
    dsimp only
    rw [hraw, if_neg (kha_not_valid hmem)]
  · intro e h
    have hraw : (generate_llm_response gw (classifyPrompt question)).1 =
        unexpectedErrorMsg e := by
      simp [generate_llm_response, h]
    have hk : ('خ' : Char) ∈ (unexpectedErrorMsg e).data := by
      unfold unexpectedErrorMsg
      rw [string_data_append]
      exact List.mem_append.mpr (Or.inl (by decide))
    have hmem := mem_normalizeIntent hk (by decide) (by decide) (by decide) (by decide)
    unfold determine_intent
    dsimp only
    rw [hraw, if_neg (kha_not_valid hmem)]

/-- C9 witness: a gateway timeout makes the classifier fall open to
`general_chat`. -/
theorem determine_intent_fail_open_witness :
    (determine_intent (fun _ => GatewayOutcome.timeout) "مرحبا").1 = "general_chat" :=
  (determine_intent_fail_open (fun _ => GatewayOutcome.timeout) "مرحبا").2.1 rfl

/-- C10: with the demo flag set, `process_chat_request` replaces the
caller-supplied identity with `None` before running the pipeline, so two
invocations differing only in user identity (same question, same
collaborators) return identical results — demo-mode output does not depend
on the user identity. -/
theorem demo_mode_identity_independence (env : Env) (question u1 u2 : String) :
    process_chat_request env question u1 true = process_chat_request env question u2 true :=
  rfl
